import Mathlib

/-!
Verification of the Malloy VS Code extension's supervisor, connection
manager, pre-save password scrubbing, and model/query materializer,
as a shallow embedding of the TypeScript sources.

Conventions of the embedding:
* JavaScript objects become structures; a field that may be `undefined`
  becomes an `Option`; a boolean field read only for truthiness becomes
  `Bool` (with `false` standing for both `false` and `undefined`).
* External library constructors (`BigQueryConnection`, `PostgresConnection`,
  `DuckDBConnection`, `Runtime.loadModel`, ...) produce opaque objects whose
  only relevant property is identity; they are modelled either as freshly
  allocated numeric identities (connections) or as an inert syntax tree
  recording exactly the calls made and their arguments (materializers).
* `throw` becomes `Except.error` with the thrown message.
-/

namespace MalloyVSCode

/-! ### Worker process supervisor (worker_connection.ts)

`WorkerConnection` forks a child process and registers an `exit` handler:

  .on("exit", (status) => \x7b
    if (status !== 0) \x7b
      console.error(...); console.info(...);
      setTimeout(startWorker, 5000);
    \x7d
  \x7d)

`stop()` runs `this.worker.kill("SIGHUP")`.  Node delivers the `exit`
event with a numeric status, or with `null` when the child was killed by
a signal.  The handler closes over no stop flag: the class keeps no
record that `stop()` was called. -/

/-- Exit status of the child process: `some n` for a numeric exit code,
`none` for Node's `null` status when the child died from a signal. -/
abbrev ExitStatus := Option Int

/-- Observable supervisor state: the delays (in milliseconds) of the
restarts scheduled so far, in order. -/
structure WorkerState where
  restarts : List Nat
  deriving Repr, DecidableEq

/-- The events the supervisor reacts to: a `stop()` call, or an `exit`
event of the child process carrying its status. -/
inductive WEvent
  | stop
  | exit (status : ExitStatus)
  deriving Repr, DecidableEq

/-- The `exit` handler registered by `startWorker`: when `status !== 0`
it logs and schedules one restart via `setTimeout(startWorker, 5000)`.
`null !== 0` holds in JavaScript, so a signal death also restarts. -/
def onExit (st : WorkerState) (status : ExitStatus) : WorkerState :=
  if status ≠ some 0 then { restarts := st.restarts ++ [5000] } else st

/-- One supervisor step.  `stop()` only sends SIGHUP to the child; it does
not change anything the `exit` handler later reads (the source keeps no
"stopped" flag), so the handler runs unconditionally on the next exit. -/
def step (st : WorkerState) : WEvent → WorkerState
  | .stop => st
  | .exit status => onExit st status

/-- Run the supervisor over a sequence of events from the initial state
(no restart scheduled). -/
def runWorker (events : List WEvent) : WorkerState :=
  events.foldl step { restarts := [] }

/-! ### Connection configuration (connection_manager.ts)

`ConnectionConfig` mirrors the configuration objects read by
`connection_manager.ts` and `handleConnectionsPreSave`.  `backend` is the
string value of the `ConnectionBackend` enum ("bigquery" | "postgres" |
"duckdb"); at runtime configurations come from JSON settings, so any
string may appear.  `password` is `none` when the object has no
`password` key; `some s` when the key is present with string value `s`
(an empty string also stands for a present-but-falsy value, which the
code treats identically).  Credential fields that are only forwarded to
the external connection constructors (project, host, port, ...) are not
modelled: the constructors themselves are opaque. -/
structure ConnectionConfig where
  name : String
  backend : String
  id : String
  isDefault : Bool := false
  password : Option String := none
  useKeychainPassword : Option Bool := none
  isGenerated : Bool := false
  deriving Repr, DecidableEq

/-- The BigQuery entry `buildConfigMap` synthesizes for an empty list. -/
def bigqueryDefaultConfig : ConnectionConfig :=
  { name := "bigquery", backend := "bigquery", id := "bigquery-default",
    isDefault := true }

/-- The duckdb entry `buildConfigMap` appends when none is named "duckdb". -/
def duckdbDefaultConfig : ConnectionConfig :=
  { name := "duckdb", backend := "duckdb", id := "duckdb-default",
    isDefault := false }

/-- The list-fixup stage of `buildConfigMap`: an empty list is replaced
by the synthesized BigQuery default, and a "duckdb" entry is pushed when
`configs.find((config) => config.name === "duckdb")` finds none. -/
def resolveConfigsList (configs : List ConnectionConfig) : List ConnectionConfig :=
  let configs := if configs.length = 0 then [bigqueryDefaultConfig] else configs
  if (configs.find? (fun config => config.name = "duckdb")).isSome then configs
  else configs ++ [duckdbDefaultConfig]

/-- The map `ConnectionManager.configs`: string keys plus the
`DEFAULT_CONFIG` symbol key, kept as a separate field.  `byName` is an
association list whose most recent write shadows earlier ones, matching
record assignment. -/
structure ConfigMap where
  byName : List (String × ConnectionConfig)
  defaultConfig : Option ConnectionConfig
  deriving Repr, DecidableEq

/-- `ConnectionManager.configs` starts out as the empty record. -/
def emptyConfigMap : ConfigMap := { byName := [], defaultConfig := none }

/-- One iteration of `buildConfigMap`'s forEach: every config is written
under its name, and every config with a truthy `isDefault` overwrites the
`DEFAULT_CONFIG` slot. -/
def configMapInsert (m : ConfigMap) (config : ConnectionConfig) : ConfigMap :=
  { byName := (config.name, config) :: m.byName,
    defaultConfig := if config.isDefault then some config else m.defaultConfig }

/-- `ConnectionManager.buildConfigMap`: fix up the list, then fold every
entry into the map. -/
def buildConfigMap (m : ConfigMap) (configs : List ConnectionConfig) : ConfigMap :=
  (resolveConfigsList configs).foldl configMapInsert m

/-- The config-resolution step of `DynamicConnectionLookup.lookupConnection`:
`connectionName || DEFAULT_CONFIG` picks the symbol key when the name is
omitted or falsy (empty), otherwise the name key. -/
def lookupConfig (m : ConfigMap) (connectionName : Option String) :
    Option ConnectionConfig :=
  match connectionName with
  | none => m.defaultConfig
  | some "" => m.defaultConfig
  | some n => m.byName.lookup n

/-! ### Connection pooling (connection_manager.ts, getConnectionForConfig)

The constructed connection objects are opaque; only identity matters for
the claims, so construction is modelled as allocating a fresh numeric
identity from a counter.  `ConnectionPool` is the module-level record
from name to connection; record assignment overwrites, which a cons onto
an association list models (lookup returns the first hit). -/

/-- Options bag `ConfigOptions` (`workingDirectory` and `rowLimit` are
only forwarded to the opaque constructors and are not modelled). -/
structure ConfigOptions where
  usePool : Bool := false
  deriving Repr, DecidableEq

/-- The module-level `ConnectionPool` record plus the allocator of fresh
object identities: every identity ever handed out is below `next`. -/
structure PoolState where
  pool : List (String × Nat)
  next : Nat
  deriving Repr, DecidableEq

/-- `getConnectionForConfig`: return the pooled object when pooling is on
and one exists under the name; otherwise branch on the backend string.
BigQuery and Postgres construct a connection and, when pooling is on,
store it in the pool; DuckDB throws when unavailable and never stores its
connection in the pool; an unmatched backend leaves `connection`
undefined, and the function resolves to it (`none`). -/
def getConnectionForConfig (duckDBAvailable : Bool)
    (connectionConfig : ConnectionConfig) (opts : ConfigOptions)
    (st : PoolState) : Except String (Option Nat × PoolState) :=
  match if opts.usePool then st.pool.lookup connectionConfig.name else none with
  | some id => .ok (some id, st)
  | none =>
    if connectionConfig.backend = "bigquery" then
      .ok (some st.next,
        { pool := if opts.usePool then (connectionConfig.name, st.next) :: st.pool
                  else st.pool,
          next := st.next + 1 })
    else if connectionConfig.backend = "postgres" then
      .ok (some st.next,
        { pool := if opts.usePool then (connectionConfig.name, st.next) :: st.pool
                  else st.pool,
          next := st.next + 1 })
    else if connectionConfig.backend = "duckdb" then
      if duckDBAvailable then
        .ok (some st.next, { pool := st.pool, next := st.next + 1 })
      else .error "DuckDB is not available."
    else .ok (none, st)

/-- `setConnectionsConfig` runs `ConnectionPool = \x7b\x7d`: the pool is
emptied.  The identity allocator continues, since objects constructed
after the reset are new JavaScript objects, distinct from all earlier
ones. -/
def resetPool (st : PoolState) : PoolState := { pool := [], next := st.next }

/-! ### Model/query materializer (utils.ts: createModelMaterializer,
createRunnable)

`Runtime.loadModel`, `ModelMaterializer.extendModel` and the
`load*` methods of the materializer are external library calls; they are
modelled as an inert syntax tree recording exactly which calls were made
and with which arguments. -/

/-- Value of the `refreshSchemaCache` argument: a JavaScript boolean or
number (`Option` around it models an omitted argument). -/
inductive RefreshValue
  | bool (b : Bool)
  | num (n : Nat)
  deriving Repr, DecidableEq

/-- True exactly for the numeric constructor (`typeof x === "number"`). -/
def RefreshValue.isNum : RefreshValue → Bool
  | .num _ => true
  | .bool _ => false

/-- The options object passed to `loadModel` / `extendModel`. -/
structure LoadOptions where
  importBaseURL : Option String := none
  refreshSchemaCache : Option RefreshValue := none
  deriving Repr, DecidableEq

/-- Syntax tree of materializer-producing library calls. -/
inductive MM
  | loadModel (url : String) (opts : LoadOptions)
  | extendModel (base : MM) (url : String) (opts : LoadOptions)
  deriving Repr, DecidableEq

/-- One notebook cell: its language id and its URI. -/
structure Cell where
  languageId : String
  uri : String
  deriving Repr, DecidableEq

/-- `CellData`: the notebook's base URI and its cells in order. -/
structure CellData where
  baseUri : String
  cells : List Cell
  deriving Repr, DecidableEq

/-- The normalization `if (refreshSchemaCache && typeof refreshSchemaCache
!== "number") refreshSchemaCache = Date.now()`: truthy non-numbers (only
`true`) become the current time `now`; `false`, numbers (including 0) and
an omitted value pass through. -/
def normalizeRefresh (now : Nat) : Option RefreshValue → Option RefreshValue
  | some (.bool true) => some (.num now)
  | r => r

/-- Accumulate one model over a list of cell URIs with fixed options:
the first URI initializes the model with `loadModel`, every later URI
extends it with `extendModel`; an empty list yields no model. -/
def accumModel (opts : LoadOptions) (uris : List String) : Option MM :=
  uris.foldl
    (fun mm url =>
      match mm with
      | some m => some (.extendModel m url opts)
      | none => some (.loadModel url opts))
    none

/-- `createModelMaterializer`: with cell data, normalize the refresh flag
and fold the cells, loading/extending only on cells whose `languageId`
is "malloy"; without cell data, load the single file directly with the
refresh flag as given (no normalization on this path). -/
def createModelMaterializer (now : Nat) (uri : String)
    (cellData : Option CellData)
    (refreshSchemaCache : Option RefreshValue := none) : Option MM :=
  match cellData with
  | some cd =>
    let refresh := normalizeRefresh now refreshSchemaCache
    let opts : LoadOptions :=
      { importBaseURL := some cd.baseUri, refreshSchemaCache := refresh }
    cd.cells.foldl
      (fun mm cell =>
        if cell.languageId = "malloy" then
          match mm with
          | some m => some (.extendModel m cell.uri opts)
          | none => some (.loadModel cell.uri opts)
        else mm)
      none
  | none =>
    some (.loadModel uri { refreshSchemaCache := refreshSchemaCache })

/-- `WorkerQuerySpec`: the query reference sent to the worker.  `type` is
the discriminator string; the remaining fields carry the payload of
whichever variant is selected. -/
structure WorkerQuerySpec where
  type : String
  uri : String
  text : String := ""
  name : String := ""
  index : Int := 0
  deriving Repr, DecidableEq

/-- Syntax tree of the runnable-producing library calls made by
`createRunnable`. -/
inductive Runnable
  | loadQuery (mm : MM) (text : String)
  | loadQueryByName (mm : MM) (name : String)
  | loadFinalQuery (mm : MM)
  | loadQueryByIndex (mm : MM) (index : Int)
  | loadSQLBlockByName (mm : MM) (name : String)
  | loadSQLBlockByIndex (mm : MM) (index : Int)
  deriving Repr, DecidableEq

/-- `createRunnable`: build the model (no `refreshSchemaCache` argument is
passed), throw "Missing model definition" when it is null, then branch on
the `type` tag, with `index === -1` selecting the final query on the
"file" path and an unmatched tag throwing the internal error. -/
def createRunnable (now : Nat) (query : WorkerQuerySpec)
    (cellData : Option CellData) : Except String Runnable :=
  match createModelMaterializer now query.uri cellData with
  | none => .error "Missing model definition"
  | some mm =>
    if query.type = "string" then .ok (.loadQuery mm query.text)
    else if query.type = "named" then .ok (.loadQueryByName mm query.name)
    else if query.type = "file" then
      if query.index = -1 then .ok (.loadFinalQuery mm)
      else .ok (.loadQueryByIndex mm query.index)
    else if query.type = "named_sql" then .ok (.loadSQLBlockByName mm query.name)
    else if query.type = "unnamed_sql" then .ok (.loadSQLBlockByIndex mm query.index)
    else .error "Internal Error: Unexpected query type"

/-! ### Pre-save cleanup (edit_connections.ts: handleConnectionsPreSave)

The loop both rewrites the list it returns and performs keychain side
effects (`setPassword` / `deletePassword`), modelled as a list of
operations.  `password = none` models an object without a `password`
key; `some ""` a present-but-falsy value (both the empty string and an
explicit `undefined` value behave identically in the source, which only
tests `'password' in connection` and the value's truthiness). -/

/-- A keychain side effect: delete or set the entry for a connection id
(the service name "com.malloy-lang.vscode-extension" is fixed). -/
inductive KeychainOp
  | del (key : String)
  | set (key : String) (password : String)
  deriving Repr, DecidableEq

/-- The keychain account key for a connection id. -/
def keychainKey (id : String) : String := "connections." ++ id ++ ".password"

/-- Modelled from the spec: `getDefaultIndex` is imported from
`connection_manager_types.ts`, which is not among the provided sources.
Per the spec's default-connection rule (the first entry whose default
flag is set is the default), it returns the index of the first
default-flagged entry.  The C10 theorems do not depend on which index it
returns. -/
def getDefaultIndex (connections : List ConnectionConfig) : Option Nat :=
  connections.findIdx? (fun c => c.isDefault)

/-- One iteration of the `handleConnectionsPreSave` loop at position
`index`: fix up `isDefault`; when a `password` key is present, clear a
`useKeychainPassword === false` marker (deleting the keychain entry),
then either emit the scrubbed connection and the keychain write (truthy
password) or drop the connection (falsy password); without a `password`
key, keep the connection unless it is generated. -/
def preSaveStep (defaultIndex : Option Nat) (index : Nat)
    (connection : ConnectionConfig) :
    List ConnectionConfig × List KeychainOp :=
  let connection := { connection with isDefault := (decide (defaultIndex = some index)) }
  match connection.password with
  | some pw =>
    let cleared :=
      if connection.useKeychainPassword = some false then
        { connection with useKeychainPassword := none }
      else connection
    let delOps :=
      if connection.useKeychainPassword = some false then
        [KeychainOp.del (keychainKey connection.id)]
      else []
    if pw ≠ "" then
      ([{ cleared with password := none, useKeychainPassword := some true }],
        delOps ++ [KeychainOp.set (keychainKey connection.id) pw])
    else ([], delOps)
  | none =>
    if !connection.isGenerated then ([connection], []) else ([], [])

/-- The `for` loop of `handleConnectionsPreSave`, accumulating the
returned connections and the keychain operations in iteration order. -/
def preSaveLoop (defaultIndex : Option Nat) (index : Nat) :
    List ConnectionConfig → List ConnectionConfig × List KeychainOp
  | [] => ([], [])
  | connection :: rest =>
    let here := preSaveStep defaultIndex index connection
    let there := preSaveLoop defaultIndex (index + 1) rest
    (here.1 ++ there.1, here.2 ++ there.2)

/-- `handleConnectionsPreSave`: compute the default index, then run the
loop from index 0; the function's return value is the first component. -/
def handleConnectionsPreSave (connections : List ConnectionConfig) :
    List ConnectionConfig × List KeychainOp :=
  preSaveLoop (getDefaultIndex connections) 0 connections

end MalloyVSCode

namespace MalloyVSCode

/-- C4: an exit event with status 0 schedules no restart; an exit event
with any non-zero status schedules exactly one restart after the fixed
5000 ms delay. -/
theorem exit_zero_no_restart_nonzero_one_restart
    (st : WorkerState) (n : Int) :
    step st (.exit (some 0)) = st ∧
    (n ≠ 0 → (step st (.exit (some n))).restarts = st.restarts ++ [5000]) := by
  constructor
  · simp [step, onExit]
  · intro hn
    simp [step, onExit, hn]

/-- Witness for C4 at a concrete state and status. -/
theorem exit_zero_no_restart_nonzero_one_restart_witness :
    step { restarts := [] } (.exit (some 0)) = { restarts := [] } ∧
    (step { restarts := [] } (.exit (some 1))).restarts = [] ++ [5000] :=
  ⟨(exit_zero_no_restart_nonzero_one_restart { restarts := [] } 1).1,
   (exit_zero_no_restart_nonzero_one_restart { restarts := [] } 1).2 (by decide)⟩

/-- C1 (code bug): `stop()` followed by an exit event of the killed child
(status 1 here; likewise `null` from the SIGHUP kill) still schedules a
restart — the handler tests only `status !== 0` and no stop flag exists,
so intentional shutdown does not suppress the auto-restart. -/
theorem stop_then_exit_still_restarts :
    runWorker [.stop, .exit (some 1)] = { restarts := [5000] } ∧
    runWorker [.stop, .exit none] = { restarts := [5000] } := by
  constructor <;> rfl

/-- Folding `configMapInsert` touches `defaultConfig` exactly like the
overwrite-if-default fold. -/
theorem foldl_configMapInsert_defaultConfig
    (cs : List ConnectionConfig) (m : ConfigMap) :
    (cs.foldl configMapInsert m).defaultConfig =
      cs.foldl (fun d c => if c.isDefault then some c else d) m.defaultConfig := by
  induction cs generalizing m with
  | nil => rfl
  | cons c rest ih =>
      simp only [List.foldl_cons, ih, configMapInsert]

/-- The overwrite-if-default fold lands on the last default entry, when
one exists. -/
theorem foldl_default_eq_reverse_find
    (cs : List ConnectionConfig) (d : Option ConnectionConfig) :
    cs.foldl (fun d c => if c.isDefault then some c else d) d =
      match cs.reverse.find? (fun c => c.isDefault) with
      | some c => some c
      | none => d := by
  induction cs generalizing d with
  | nil => rfl
  | cons c rest ih =>
      simp only [List.foldl_cons, ih, List.reverse_cons, List.find?_append]
      cases hfind : rest.reverse.find? (fun c => c.isDefault) with
      | some x => simp
      | none =>
          cases hc : c.isDefault <;> simp [List.find?, hc]

/-- C2 amended: a lookup that omits the connection name resolves to the
LAST entry of the resolved configuration list whose default flag is set
(each default entry overwrites the `DEFAULT_CONFIG` slot in turn), not
the first. -/
theorem default_lookup_resolves_last_default (cs : List ConnectionConfig) :
    lookupConfig (buildConfigMap emptyConfigMap cs) none =
      (resolveConfigsList cs).reverse.find? (fun c => c.isDefault) := by
  show (buildConfigMap emptyConfigMap cs).defaultConfig = _
  rw [buildConfigMap, foldl_configMapInsert_defaultConfig,
    foldl_default_eq_reverse_find]
  cases (resolveConfigsList cs).reverse.find? (fun c => c.isDefault) <;> rfl

/-- First entry of the C2 counterexample list; its default flag is set. -/
def alphaConfig : ConnectionConfig :=
  { name := "alpha", backend := "postgres", id := "alpha-id", isDefault := true }

/-- Second entry of the C2 counterexample list; its default flag is also set. -/
def betaConfig : ConnectionConfig :=
  { name := "beta", backend := "bigquery", id := "beta-id", isDefault := true }

/-- C2 counterexample: with two default-flagged entries, a nameless
lookup resolves to the second (last) one, not the first as claimed. -/
theorem default_lookup_not_first_default :
    lookupConfig (buildConfigMap emptyConfigMap [alphaConfig, betaConfig]) none
        = some betaConfig ∧
      betaConfig ≠ alphaConfig := by
  refine ⟨rfl, by decide⟩

/-- C5: an empty configuration list resolves to exactly the synthesized
default BigQuery entry followed by the synthesized non-default "duckdb"
entry; a non-empty list with no entry named "duckdb" resolves to itself,
order preserved, with exactly one synthesized non-default "duckdb" entry
appended. -/
theorem resolveConfigsList_spec :
    resolveConfigsList [] = [bigqueryDefaultConfig, duckdbDefaultConfig] ∧
    bigqueryDefaultConfig.backend = "bigquery" ∧
    bigqueryDefaultConfig.isDefault = true ∧
    duckdbDefaultConfig.name = "duckdb" ∧
    duckdbDefaultConfig.isDefault = false ∧
    ∀ cs : List ConnectionConfig, cs ≠ [] →
      (∀ c ∈ cs, c.name ≠ "duckdb") →
      resolveConfigsList cs = cs ++ [duckdbDefaultConfig] := by
  refine ⟨by decide, rfl, rfl, rfl, rfl, ?_⟩
  intro cs hne hnames
  rw [resolveConfigsList]
  have hlen : ¬ cs.length = 0 := by
    simpa [List.length_eq_zero] using hne
  simp only [hlen, if_false]
  have hfind : cs.find? (fun config => config.name = "duckdb") = none := by
    rw [List.find?_eq_none]
    intro c hc
    simpa using hnames c hc
  simp [hfind]

/-- Configuration used to witness C5's non-empty case. -/
def gammaConfig : ConnectionConfig :=
  { name := "gamma", backend := "postgres", id := "gamma-id" }

/-- Witness for C5 at the one-element list `[gammaConfig]`. -/
theorem resolveConfigsList_spec_witness :
    resolveConfigsList [gammaConfig] = [gammaConfig] ++ [duckdbDefaultConfig] :=
  resolveConfigsList_spec.2.2.2.2.2 [gammaConfig] (by decide) (by decide)

/-- C3 counterexample: for a DuckDB config, pooling enabled, the pool is
never populated, so two successive pooled lookups construct two distinct
connection objects — the claim fails for the DuckDB backend kind. -/
theorem duckdb_pooled_lookup_not_cached :
    getConnectionForConfig true duckdbDefaultConfig { usePool := true }
        { pool := [], next := 0 } =
      .ok (some 0, { pool := [], next := 1 }) ∧
    getConnectionForConfig true duckdbDefaultConfig { usePool := true }
        { pool := [], next := 1 } =
      .ok (some 1, { pool := [], next := 2 }) ∧
    (0 : Nat) ≠ 1 := by
  refine ⟨rfl, rfl, by decide⟩

/-- C3 amended: for the BigQuery and Postgres backends, once a pooled
connection is created for a name, a subsequent pooled lookup for that
name returns the identical object and leaves the pool unchanged; after
`setConnectionsConfig` empties the pool, a lookup constructs a distinct
object.  (For DuckDB the pool is never populated — see the
counterexample.) -/
theorem pooled_lookup_identity (dba : Bool) (cfg : ConnectionConfig)
    (st : PoolState)
    (hb : cfg.backend = "bigquery" ∨ cfg.backend = "postgres")
    (hmiss : st.pool.lookup cfg.name = none) :
    getConnectionForConfig dba cfg { usePool := true } st =
      .ok (some st.next,
        { pool := (cfg.name, st.next) :: st.pool, next := st.next + 1 }) ∧
    getConnectionForConfig dba cfg { usePool := true }
        { pool := (cfg.name, st.next) :: st.pool, next := st.next + 1 } =
      .ok (some st.next,
        { pool := (cfg.name, st.next) :: st.pool, next := st.next + 1 }) ∧
    getConnectionForConfig dba cfg { usePool := true }
        (resetPool { pool := (cfg.name, st.next) :: st.pool, next := st.next + 1 }) =
      .ok (some (st.next + 1),
        { pool := [(cfg.name, st.next + 1)], next := st.next + 1 + 1 }) ∧
    st.next + 1 ≠ st.next := by
  rcases hb with hb | hb <;>
    refine ⟨?_, ?_, ?_, by omega⟩ <;>
      simp [getConnectionForConfig, resetPool, hmiss, hb, List.lookup]

/-- Postgres configuration used to witness C3's amended statement. -/
def pgPoolConfig : ConnectionConfig :=
  { name := "pg", backend := "postgres", id := "pg-id" }

/-- Witness for the amended C3 at a concrete Postgres config and the
empty pool. -/
theorem pooled_lookup_identity_witness :
    getConnectionForConfig true pgPoolConfig { usePool := true }
        { pool := [], next := 0 } =
      .ok (some 0, { pool := [(pgPoolConfig.name, 0)], next := 1 }) ∧
    getConnectionForConfig true pgPoolConfig { usePool := true }
        { pool := [(pgPoolConfig.name, 0)], next := 1 } =
      .ok (some 0, { pool := [(pgPoolConfig.name, 0)], next := 1 }) ∧
    getConnectionForConfig true pgPoolConfig { usePool := true }
        (resetPool { pool := [(pgPoolConfig.name, 0)], next := 1 }) =
      .ok (some 1, { pool := [(pgPoolConfig.name, 1)], next := 2 }) ∧
    (0 : Nat) + 1 ≠ 0 :=
  pooled_lookup_identity true pgPoolConfig { pool := [], next := 0 }
    (Or.inr rfl) rfl

/-- C9: a configuration whose backend is none of "bigquery", "postgres"
or "duckdb", with no pooled entry for its name, neither throws nor
constructs a connection: the call resolves to `undefined` and leaves the
pool untouched. -/
theorem unknown_backend_resolves_undefined (dba : Bool)
    (cfg : ConnectionConfig) (opts : ConfigOptions) (st : PoolState)
    (hb1 : cfg.backend ≠ "bigquery") (hb2 : cfg.backend ≠ "postgres")
    (hb3 : cfg.backend ≠ "duckdb")
    (hmiss : st.pool.lookup cfg.name = none) :
    getConnectionForConfig dba cfg opts st = .ok (none, st) := by
  have hkey : (if opts.usePool then st.pool.lookup cfg.name else none) = none := by
    cases opts.usePool <;> simp [hmiss]
  simp [getConnectionForConfig, hkey, hb1, hb2, hb3]

/-- Configuration with an unrecognized backend, used to witness C9. -/
def mysqlConfig : ConnectionConfig :=
  { name := "mysql", backend := "mysql", id := "mysql-id" }

/-- Witness for C9 at a concrete unrecognized backend. -/
theorem unknown_backend_resolves_undefined_witness :
    getConnectionForConfig true mysqlConfig { usePool := true }
        { pool := [], next := 0 } =
      .ok (none, { pool := [], next := 0 }) :=
  unknown_backend_resolves_undefined true mysqlConfig { usePool := true }
    { pool := [], next := 0 } (by decide) (by decide) (by decide) rfl

/-- Folding the cell loop equals folding the plain accumulator over the
URIs of the "malloy"-language cells, in order. -/
theorem foldl_malloy_filter (opts : LoadOptions) (cells : List Cell)
    (mm : Option MM) :
    cells.foldl
        (fun mm cell =>
          if cell.languageId = "malloy" then
            match mm with
            | some m => some (.extendModel m cell.uri opts)
            | none => some (.loadModel cell.uri opts)
          else mm)
        mm =
      ((cells.filter fun c => c.languageId = "malloy").map fun c => c.uri).foldl
        (fun mm url =>
          match mm with
          | some m => some (.extendModel m url opts)
          | none => some (.loadModel url opts))
        mm := by
  induction cells generalizing mm with
  | nil => rfl
  | cons cell rest ih =>
      by_cases h : cell.languageId = "malloy" <;>
        simp [List.filter_cons, h, ih]

/-- `createModelMaterializer` on cell data builds the accumulated model
of exactly the "malloy" cells' URIs, with the normalized refresh flag and
the notebook's base URI in the options of every load/extend call. -/
theorem createModelMaterializer_cellData_eq (now : Nat) (uri : String)
    (cd : CellData) (r : Option RefreshValue) :
    createModelMaterializer now uri (some cd) r =
      accumModel
        { importBaseURL := some cd.baseUri,
          refreshSchemaCache := normalizeRefresh now r }
        ((cd.cells.filter fun c => c.languageId = "malloy").map fun c => c.uri) := by
  rw [createModelMaterializer, accumModel]
  exact foldl_malloy_filter _ cd.cells none

/-- C7: with cell data, the cells are visited in order and exactly those
with languageId "malloy" feed one accumulating model (first initializes,
later ones extend); in particular the cells
[malloy "a", text "b", malloy "c"] yield the model loaded from "a" and
extended with "c". -/
theorem cells_accumulate_single_model (now : Nat) (uri : String)
    (cd : CellData) (r : Option RefreshValue) :
    createModelMaterializer now uri (some cd) r =
      accumModel
        { importBaseURL := some cd.baseUri,
          refreshSchemaCache := normalizeRefresh now r }
        ((cd.cells.filter fun c => c.languageId = "malloy").map fun c => c.uri) ∧
    createModelMaterializer 0 "notebook"
        (some { baseUri := "base",
                cells := [{ languageId := "malloy", uri := "a" },
                          { languageId := "text", uri := "b" },
                          { languageId := "malloy", uri := "c" }] })
        none =
      some (.extendModel
        (.loadModel "a" { importBaseURL := some "base", refreshSchemaCache := none })
        "c" { importBaseURL := some "base", refreshSchemaCache := none }) :=
  ⟨createModelMaterializer_cellData_eq now uri cd r, rfl⟩

/-- C6 counterexample: with null cell data, a refresh flag of boolean
true reaches `loadModel` unchanged — it is not normalized to a numeric
timestamp before the model is loaded. -/
theorem refresh_true_unnormalized_without_cells :
    createModelMaterializer 42 "file:///a.malloy" none (some (.bool true)) =
      some (.loadModel "file:///a.malloy"
        { importBaseURL := none, refreshSchemaCache := some (.bool true) }) ∧
    (RefreshValue.bool true).isNum = false := by
  refine ⟨rfl, rfl⟩

/-- C6 amended: when cell data is supplied, boolean true is normalized
to the current timestamp before any model load, while a caller-supplied
numeric timestamp and an omitted flag pass through unchanged; with null
cell data the flag is handed to `loadModel` exactly as given (boolean
true included). -/
theorem refresh_flag_normalization (now n : Nat) (uri : String)
    (cd : CellData) (r : Option RefreshValue) :
    normalizeRefresh now (some (.bool true)) = some (.num now) ∧
    normalizeRefresh now (some (.num n)) = some (.num n) ∧
    normalizeRefresh now none = none ∧
    normalizeRefresh now (some (.bool false)) = some (.bool false) ∧
    createModelMaterializer now uri (some cd) r =
      accumModel
        { importBaseURL := some cd.baseUri,
          refreshSchemaCache := normalizeRefresh now r }
        ((cd.cells.filter fun c => c.languageId = "malloy").map fun c => c.uri) ∧
    createModelMaterializer now uri none r =
      some (.loadModel uri { refreshSchemaCache := r }) :=
  ⟨rfl, rfl, rfl, rfl, createModelMaterializer_cellData_eq now uri cd r, rfl⟩

/-- C8: `createRunnable` fails with "Missing model definition" exactly
when no model was produced; given a model, each recognized type tag maps
to its library call ("file" with sentinel index -1 selecting the final
query), and every unrecognized tag fails with the fixed internal-error
message. -/
theorem createRunnable_spec (now : Nat) (q : WorkerQuerySpec)
    (cd : Option CellData) :
    (createRunnable now q cd = .error "Missing model definition" ↔
      createModelMaterializer now q.uri cd = none) ∧
    ∀ mm, createModelMaterializer now q.uri cd = some mm →
      (q.type = "string" → createRunnable now q cd = .ok (.loadQuery mm q.text)) ∧
      (q.type = "named" →
        createRunnable now q cd = .ok (.loadQueryByName mm q.name)) ∧
      (q.type = "file" → q.index = -1 →
        createRunnable now q cd = .ok (.loadFinalQuery mm)) ∧
      (q.type = "file" → q.index ≠ -1 →
        createRunnable now q cd = .ok (.loadQueryByIndex mm q.index)) ∧
      (q.type = "named_sql" →
        createRunnable now q cd = .ok (.loadSQLBlockByName mm q.name)) ∧
      (q.type = "unnamed_sql" →
        createRunnable now q cd = .ok (.loadSQLBlockByIndex mm q.index)) ∧
      (q.type ≠ "string" → q.type ≠ "named" → q.type ≠ "file" →
        q.type ≠ "named_sql" → q.type ≠ "unnamed_sql" →
        createRunnable now q cd = .error "Internal Error: Unexpected query type") := by
  constructor
  · cases h : createModelMaterializer now q.uri cd with
    | none => simp [createRunnable, h]
    | some mm =>
        simp only [createRunnable, h]
        constructor
        · intro hcontra
          split_ifs at hcontra
          all_goals simp_all
        · intro hcontra
          exact absurd hcontra (by simp)
  · intro mm hmm
    refine ⟨?_, ?_, ?_, ?_, ?_, ?_, ?_⟩
    · intro ht; simp [createRunnable, hmm, ht]
    · intro ht; simp [createRunnable, hmm, ht]
    · intro ht hidx; simp [createRunnable, hmm, ht, hidx]
    · intro ht hidx; simp [createRunnable, hmm, ht, hidx]
    · intro ht; simp [createRunnable, hmm, ht]
    · intro ht; simp [createRunnable, hmm, ht]
    · intro h1 h2 h3 h4 h5; simp [createRunnable, hmm, h1, h2, h3, h4, h5]

/-- Witness for C8: the "file" tag with the sentinel index -1 resolves to
the final query of the single-file model. -/
theorem createRunnable_spec_witness :
    createRunnable 0 { type := "file", uri := "file:///m.malloy", index := -1 }
        none =
      .ok (.loadFinalQuery
        (.loadModel "file:///m.malloy"
          { importBaseURL := none, refreshSchemaCache := none })) :=
  ((createRunnable_spec 0
        { type := "file", uri := "file:///m.malloy", index := -1 } none).2
      (.loadModel "file:///m.malloy"
        { importBaseURL := none, refreshSchemaCache := none })
      rfl).2.2.1 rfl rfl

/-- Whatever `preSaveStep` emits carries no password value. -/
theorem preSaveStep_password_none (di : Option Nat) (i : Nat)
    (c : ConnectionConfig) :
    ∀ x ∈ (preSaveStep di i c).1, x.password = none := by
  intro x hx
  rcases c with ⟨nm, be, cid, df, pwOpt, ukp, gen⟩
  rw [preSaveStep] at hx
  cases pwOpt with
  | some pw =>
      by_cases hpw : pw = "" <;> split_ifs at hx <;> simp_all
  | none =>
      cases gen <;> simp_all

/-- Whatever the pre-save loop emits carries no password value. -/
theorem preSaveLoop_password_none (di : Option Nat)
    (l : List ConnectionConfig) :
    ∀ i : Nat, ∀ x ∈ (preSaveLoop di i l).1, x.password = none := by
  induction l with
  | nil => intro i x hx; simp [preSaveLoop] at hx
  | cons c rest ih =>
      intro i x hx
      rw [preSaveLoop] at hx
      rcases List.mem_append.mp hx with hx | hx
      · exact preSaveStep_password_none di i c x hx
      · exact ih (i + 1) x hx

/-- C10: the saved list contains no plaintext password; per entry, a
truthy password yields exactly the scrubbed connection (password cleared,
useKeychainPassword true) plus the keychain write of that password, a
present-but-falsy password drops the entry, a generated entry without a
password key is dropped, and a non-generated entry without a password
key is kept (with only its default flag fixed up). -/
theorem handleConnectionsPreSave_scrubs (conns : List ConnectionConfig) :
    (∀ x ∈ (handleConnectionsPreSave conns).1, x.password = none) ∧
    ∀ (di : Option Nat) (i : Nat) (c : ConnectionConfig),
      (∀ pw, c.password = some pw → pw ≠ "" →
        (preSaveStep di i c).1 =
          [{ c with
              isDefault := (decide (di = some i)), password := none,
              useKeychainPassword := some true }] ∧
        (preSaveStep di i c).2 =
          (if c.useKeychainPassword = some false then
            [KeychainOp.del (keychainKey c.id)]
          else []) ++ [KeychainOp.set (keychainKey c.id) pw]) ∧
      (c.password = some "" → (preSaveStep di i c).1 = []) ∧
      (c.password = none → c.isGenerated = true →
        preSaveStep di i c = ([], [])) ∧
      (c.password = none → c.isGenerated = false →
        preSaveStep di i c =
          ([{ c with isDefault := (decide (di = some i)) }], [])) := by
  refine ⟨preSaveLoop_password_none (getDefaultIndex conns) conns 0, ?_⟩
  intro di i c
  rcases c with ⟨nm, be, cid, df, pwOpt, ukp, gen⟩
  refine ⟨?_, ?_, ?_, ?_⟩
  · intro pw hp hne
    cases pwOpt with
    | none => simp at hp
    | some pw0 =>
        obtain rfl : pw0 = pw := by simpa using hp
        constructor <;> simp [preSaveStep, hne]
        all_goals split_ifs <;> simp_all
  · intro hp
    cases pwOpt with
    | none => simp at hp
    | some pw0 =>
        obtain rfl : pw0 = "" := by simpa using hp
        simp [preSaveStep]
  · intro hp hgen
    cases pwOpt with
    | some pw0 => simp at hp
    | none => simp_all [preSaveStep]
  · intro hp hgen
    cases pwOpt with
    | some pw0 => simp at hp
    | none => simp_all [preSaveStep]

/-- Connection with a truthy password, used to witness C10. -/
def pgSaveConfig : ConnectionConfig :=
  { name := "pgsave", backend := "postgres", id := "pgsave-id",
    password := some "hunter2" }

/-- Witness for C10 at a concrete connection carrying a password. -/
theorem handleConnectionsPreSave_scrubs_witness :
    (preSaveStep (some 0) 0 pgSaveConfig).1 =
      [{ pgSaveConfig with
          isDefault := (decide ((some 0 : Option Nat) = some 0)),
          password := none, useKeychainPassword := some true }] ∧
    (preSaveStep (some 0) 0 pgSaveConfig).2 =
      (if pgSaveConfig.useKeychainPassword = some false then
        [KeychainOp.del (keychainKey pgSaveConfig.id)]
      else []) ++ [KeychainOp.set (keychainKey pgSaveConfig.id) "hunter2"] :=
  ((handleConnectionsPreSave_scrubs [pgSaveConfig]).2 (some 0) 0
      pgSaveConfig).1 "hunter2" rfl (by decide)

end MalloyVSCode
